import Mathlib

/-!
Verification development for the Tutorials repository.

Shallow embedding of three source files:
* `financial-analyst/server.py` — a tool server with three operations
  (`analyze_stock`, `save_code`, `run_code_and_show_plot`); the filesystem slot
  for `stock_analysis.py` is an `Option String`, and the effectful collaborators
  (`run_financial_analysis`, the file write, `exec`) are oracle parameters of
  type `Except String _`, an `Except.error` meaning the Python call raised.
* `langGraph.py` (namespace `LG`) — the five-node research pipeline.
* `kimi_k2_hands_on.py` (namespace `KK`) — the four-node variant.

Completion and search collaborators are oracles: `llm : String → Except String
String` (for `llm.invoke`), `chat : List Msg → Except String String` (for
`kimi_k2_chat`), `search : String → SearchResult` (for `SerperSearchTool._run`,
which never raises), and the raw HTTP layer `post : String → Except String
HttpResponse` underneath `serper_run`.  Python `try/except` blocks become
matches on the oracle outcome; a function whose Python body cannot raise in
this model is total with a plain codomain.  Python dict keys that may be
absent (or set to `None`) are `Option` fields; `dict.get(k, d)` is `getD`.
-/

namespace Tutorials

/-! ## Tool server: src/financial-analyst/server.py -/

/-- The structured result dict every tool operation returns: `{"result": s}`. -/
structure ToolResult where
  result : String

/-- The backtick character (code point 96), written via `Char.ofNat`. -/
def btick : Char := Char.ofNat 96

/-- Whitespace test used by Python's `str.strip()`. -/
def isWS (c : Char) : Bool := c.isWhitespace

/-- Python `str.strip()` on a character list: drop leading and trailing
whitespace. -/
def pyStrip (l : List Char) : List Char :=
  ((l.dropWhile isWS).reverse.dropWhile isWS).reverse

/-- Python `s.replace(t, '')` where `t` is three backticks: scan left to
right; whenever the next three characters are backticks, delete them and
continue after the deleted occurrence (non-overlapping replacement), else keep
the character.  From line 40 of server.py. -/
def stripTriple : List Char → List Char
  | [] => []
  | c :: rest =>
    if c = btick ∧ rest.take 2 = [btick, btick] then stripTriple (rest.drop 2)
    else c :: stripTriple rest
termination_by l => l.length
decreasing_by
  all_goals simp [List.length_drop]
  omega

/-- The characters tested by `line.strip().startswith(('+', '|', '-', t))`
in `analyze_stock`, where `t` is a backtick. -/
def bulletChars : List Char := ['+', '|', '-', btick]

/-- `line.strip().startswith(('+', '|', '-', t))` from line 39 of server.py:
true when the stripped line is nonempty and its first character is one of the
four markers. -/
def badStart (l : List Char) : Bool :=
  match pyStrip l with
  | [] => false
  | c :: _ => bulletChars.contains c

/-- The line filter of `analyze_stock` (lines 37–39 of server.py): keep a line
iff its stripped form does not start with a marker character. -/
def keptLines (lines : List (List Char)) : List (List Char) :=
  lines.filter (fun line => ! badStart line)

/-- Lines 37–40 of server.py: join the kept lines with newlines, delete every
triple-backtick occurrence, then strip the ends. -/
def cleanedChars (lines : List (List Char)) : List Char :=
  pyStrip (stripTriple (List.intercalate ['\n'] (keptLines lines)))

/-- Outcome of `run_financial_analysis(query)`.  `dict d` is a dict result,
carrying the string `json.dumps` renders it to; `text lines` is any other
result, carrying `str(result).splitlines()` (Python line contents, no
newline characters inside a line). -/
inductive RFAValue where
  | dict (dumped : String)
  | text (lines : List (List Char))

/-- `analyze_stock` (server.py lines 8–43).  The whole body is inside
`try/except Exception`; the oracle `rfa` is `run_financial_analysis`, whose
`Except.error e` case models a raised exception with message `e` (the `print`
debug side effect is dropped). -/
def analyze_stock (query : String) (rfa : String → Except String RFAValue) : ToolResult :=
  match rfa query with
  | Except.error e => { result := "Error: " ++ e }
  | Except.ok (RFAValue.dict d) => { result := d }
  | Except.ok (RFAValue.text lines) => { result := String.mk (cleanedChars lines) }

/-- `save_code` (server.py lines 46–63).  `file` is the current contents of
`stock_analysis.py` (`none` = absent); `writeRes` is the outcome of
`open('stock_analysis.py', 'w')` plus `f.write(code)` — on `Except.error` the
exception is caught and the contents this model keeps are not relied upon by
any theorem.  Returns the result dict and the new file contents. -/
def save_code (file : Option String) (writeRes : Except String Unit) (code : String) :
    ToolResult × Option String :=
  match writeRes with
  | Except.ok _ => ({ result := "Code saved successfully" }, some code)
  | Except.error e => ({ result := "Error: " ++ e }, file)

/-- The CPython message of the `FileNotFoundError` raised by
`open('stock_analysis.py', 'r')` when the file does not exist. -/
def fileNotFoundMsg : String :=
  "[Errno 2] No such file or directory: 'stock_analysis.py'"

/-- `run_code_and_show_plot` (server.py lines 65–75): read the whole file and
`exec` its full contents.  `execF` is the `exec` oracle; an absent file makes
the `open` raise, caught into the result dict. -/
def run_code_and_show_plot (file : Option String) (execF : String → Except String Unit) :
    ToolResult :=
  match file with
  | none => { result := "Error: " ++ fileNotFoundMsg }
  | some code =>
    match execF code with
    | Except.ok _ => { result := "Plot generated successfully" }
    | Except.error e => { result := "Error: " ++ e }

/-! ## Search tool: `SerperSearchTool._run` (langGraph.py lines 32–57,
kimi_k2_hands_on.py lines 33–58; the two bodies are identical). -/

/-- One parsed hit object; every field is best-effort (`none` = key absent). -/
structure Hit where
  title : Option String := none
  link : Option String := none
  source : Option String := none
  displayLink : Option String := none
  date : Option String := none
  snippet : Option String := none

/-- The parsed provider JSON: optional `organic` and `news` arrays
(`none` = key absent). -/
structure SerperData where
  organic : Option (List Hit) := none
  news : Option (List Hit) := none

/-- What `_run` returns: either a dict with an `error` key, or the parsed
provider JSON (which has no `error` key). -/
inductive SearchResult where
  | err (msg : String)
  | ok (data : SerperData)

/-- Whether a `_run` result is error-tagged (carries an `error` field). -/
def isErrTagged : SearchResult → Bool
  | SearchResult.err _ => true
  | SearchResult.ok _ => false

/-- An HTTP response from `requests.post`: status code, the message
`str(HTTPError(...))` would carry for this response (used by
`raise_for_status`), and the outcome of `response.json()` (`Except.error` =
body is not valid JSON, which raises and is caught). -/
structure HttpResponse where
  status : Nat
  httpErrMsg : String
  jsonBody : Except String SerperData

/-- `SerperSearchTool._run`.  `apiKey` is `os.getenv("SERPER_API_KEY")`;
`post` is the network oracle (`requests.post` applied to the payload built
from the query), `Except.error e` being a raised `RequestException`.
`raise_for_status` raises exactly for status codes 400–599, caught by the
`RequestException` branch into `"Network issue: ..."`; a failing
`response.json()` is caught into `"Search error: ..."`. -/
def serper_run (apiKey : Option String) (query : String)
    (post : String → Except String HttpResponse) : SearchResult :=
  match apiKey with
  | none => SearchResult.err ("SERPER_API_KEY not found in environment variables")
  | some _ =>
    match post query with
    | Except.error e => SearchResult.err ("Network issue: " ++ e)
    | Except.ok resp =>
      if 400 ≤ resp.status ∧ resp.status < 600 then
        SearchResult.err ("Network issue: " ++ resp.httpErrMsg)
      else
        match resp.jsonBody with
        | Except.ok data => SearchResult.ok data
        | Except.error e => SearchResult.err ("Search error: " ++ e)

/-! ## langGraph.py pipeline (namespace `LG`) -/

namespace LG

/-- The `AgentState` TypedDict of langGraph.py (lines 23–29). -/
structure AgentState where
  topic : String
  academic : Option String := none
  news : Option String := none
  industry : Option String := none
  report : Option String := none
  output : Option String := none

/-- The partial dict a node returns: only the `some` fields are written. -/
structure StateUpdate where
  academic : Option String := none
  news : Option String := none
  industry : Option String := none
  report : Option String := none
  output : Option String := none

/-- LangGraph `LastValue` channel update: a written field overwrites, an
unwritten field keeps its previous value. -/
def override (new old : Option String) : Option String :=
  match new with
  | some v => some v
  | none => old

/-- Merge a node's partial update into the shared state. -/
def applyUpdate (st : AgentState) (u : StateUpdate) : AgentState :=
  { topic := st.topic
    academic := override u.academic st.academic
    news := override u.news st.news
    industry := override u.industry st.industry
    report := override u.report st.report
    output := override u.output st.output }

/-- The prompt built by `academic_agent` (lines 63–66). -/
def academicPrompt (topic : String) : String :=
  "Summarize the latest academic research, key papers, and leading experts for the topic: '" ++
    topic ++
    "'. Mention at least two papers, breakthroughs, and cite sources if possible."

/-- `academic_agent` (lines 61–68): one `llm.invoke` call; an LLM failure
propagates (the function has no try block). -/
def academic_agent (st : AgentState) (llm : String → Except String String) :
    Except String StateUpdate := do
  let response ← llm (academicPrompt st.topic)
  return { academic := some response }

/-- The search query of `news_agent` (line 78). -/
def newsQuery (topic : String) : String := topic ++ " news"

/-- One headline block of `news_agent` (lines 92–100), with the per-key
defaults of the `item.get` calls. -/
def newsHeadline (item : Hit) : String :=
  let title := item.title.getD ("No Title")
  let link := item.link.getD ("")
  let source := item.source.getD (item.displayLink.getD (""))
  let date := item.date.getD ((item.snippet.getD ("")).take 50 ++ "...")
  let snippet := item.snippet.getD ("")
  "- **" ++ title ++ "**\n  *Source*: " ++ source ++ " | *Date*: " ++ date ++
    "\n  " ++ snippet ++ "\n  [Read more](" ++ link ++ ")\n"

/-- The non-error branch of `news_agent` (lines 85–102): take the `news`
items, fall back to the first five `organic` items, format at most five,
join with newlines or report that nothing was found. -/
def newsSummary (d : SerperData) : String :=
  let newsItems := d.news.getD []
  let items := if newsItems.isEmpty then (d.organic.getD []).take 5 else newsItems
  let headlines := (items.take 5).map newsHeadline
  if headlines.isEmpty then "No recent news found for this topic."
  else String.intercalate "\n" headlines

/-- The text `news_agent` stores: the degraded error message when the search
result is error-tagged (line 81), the formatted summary otherwise. -/
def newsText (r : SearchResult) : String :=
  match r with
  | SearchResult.err m => "Error fetching news: " ++ m
  | SearchResult.ok d => newsSummary d

/-- `news_agent` (lines 70–108): pure formatting of the search result; the
body sits in a `try/except` and nothing in this model raises, so the node is
total (its `print` calls are dropped). -/
def news_agent (st : AgentState) (search : String → SearchResult) : StateUpdate :=
  { news := some (newsText (search (newsQuery st.topic))) }

/-- The search query of `industry_agent` (line 115). -/
def industryQuery (topic : String) : String :=
  topic ++ " startup funding OR product launch OR market trends"

/-- One insight block of `industry_agent` (lines 123–130). -/
def industryInsight (item : Hit) : String :=
  let title := item.title.getD ("No Title")
  let link := item.link.getD ("")
  let snippet := item.snippet.getD ("")
  "- **" ++ title ++ "**\n  " ++ snippet ++ "\n  [Read more](" ++ link ++ ")"

/-- The non-error branch of `industry_agent` (lines 120–132). -/
def industrySummary (d : SerperData) : String :=
  let insights := ((d.organic.getD []).take 5).map industryInsight
  if insights.isEmpty then "No industry info found."
  else String.intercalate "\n" insights

/-- The text `industry_agent` stores (error branch at line 118). -/
def industryText (r : SearchResult) : String :=
  match r with
  | SearchResult.err m => "Error fetching industry insights: " ++ m
  | SearchResult.ok d => industrySummary d

/-- `industry_agent` (lines 110–133): pure formatting, never raises. -/
def industry_agent (st : AgentState) (search : String → SearchResult) : StateUpdate :=
  { industry := some (industryText (search (industryQuery st.topic))) }

/-- The synthesis prompt of `merge_and_summarize_agent` (lines 141–156),
an f-string over the topic and the three section texts. -/
def mergePrompt (topic academic news industry : String) : String :=
  "\nYou are an expert research summarizer. Given the following research, write a concise, well-structured '360° Topic Report' on '" ++
    topic ++
    "'.\n\nStart with a 1-line TL;DR.\n\nAcademic highlights:\n" ++
    academic ++
    "\n\nNews insights:\n" ++
    news ++
    "\n\nIndustry snapshot:\n" ++
    industry ++
    "\n\nFormat with sections, use clear bullet points, and end with: 'Generated by LangGraph-powered AI research assistant.'\n"

/-- `merge_and_summarize_agent` (lines 135–158): reads the three section
fields with `state.get(k, "")`, one `llm.invoke` call whose failure
propagates. -/
def merge_and_summarize_agent (st : AgentState) (llm : String → Except String String) :
    Except String StateUpdate := do
  let response ← llm (mergePrompt st.topic (st.academic.getD ("")) (st.news.getD (""))
    (st.industry.getD ("")))
  return { report := some response }

/-- `output_node` (lines 160–164): prints the report (side effect dropped)
and writes `output := state["report"]`, nothing else. -/
def output_node (st : AgentState) : StateUpdate :=
  { output := st.report }

/-- Sequential execution of the declared graph (entry `academic_agent`, join
at `merge_and_summarize_agent`, then `output_node`), per the spec's
GraphRunner: a node runs once all its predecessors are done, the run aborts
at the first failing node.  Returns the trace of nodes that ran and either
the failure or the final state. -/
def runPipeline (topic : String) (llm : String → Except String String)
    (search : String → SearchResult) : List String × Except String AgentState :=
  let st0 : AgentState := { topic := topic }
  match academic_agent st0 llm with
  | Except.error e => (["academic_agent"], Except.error e)
  | Except.ok u1 =>
    let st1 := applyUpdate st0 u1
    let st2 := applyUpdate st1 (news_agent st1 search)
    let st3 := applyUpdate st2 (industry_agent st2 search)
    match merge_and_summarize_agent st3 llm with
    | Except.error e =>
      (["academic_agent", "news_agent", "industry_agent", "merge_and_summarize_agent"],
        Except.error e)
    | Except.ok u4 =>
      let st4 := applyUpdate st3 u4
      let st5 := applyUpdate st4 (output_node st4)
      (["academic_agent", "news_agent", "industry_agent", "merge_and_summarize_agent",
        "output_node"], Except.ok st5)

end LG

/-! ## kimi_k2_hands_on.py pipeline (namespace `KK`) -/

namespace KK

/-- One chat message of `kimi_k2_chat`: a role/content pair. -/
structure Msg where
  role : String
  content : String

/-- The `AgentState` TypedDict of kimi_k2_hands_on.py (lines 61–66). -/
structure AgentState where
  topic : String
  academic : Option String := none
  news : Option String := none
  report : Option String := none
  output : Option String := none

/-- The partial dict a node returns. -/
structure StateUpdate where
  academic : Option String := none
  news : Option String := none
  report : Option String := none
  output : Option String := none

/-- The search query of `academic_agent` (line 75). -/
def academicQuery (topic : String) : String :=
  "latest academic research and papers about " ++ topic

/-- The `search_context` block of `academic_agent` (lines 78–82): empty when
the result has no `organic` key (in particular when it is error-tagged),
otherwise a header plus the first three hits numbered from 1. -/
def searchContext (r : SearchResult) : String :=
  match r with
  | SearchResult.err _ => ""
  | SearchResult.ok d =>
    match d.organic with
    | none => ""
    | some hits =>
      "Recent search results:\n" ++
        String.join (((hits.take 3).enumFrom 1).map (fun p =>
          toString p.1 ++ ". " ++ p.2.title.getD ("No title") ++ ": " ++
            p.2.snippet.getD ("No snippet") ++ "\n"))

/-- The two messages `academic_agent` sends (lines 84–93). -/
def academicMessages (topic ctx : String) : List Msg :=
  [{ role := "system",
     content := "You are an expert at finding and summarizing academic research. Use the provided search results to enhance your knowledge with up-to-date information." },
   { role := "user",
     content := "Summarize the latest academic research, key papers, and leading experts for the topic: '" ++
       topic ++ "'.\n\n" ++ ctx ++
       "\nMention at least two papers, breakthroughs, and trends. If search results are available, incorporate them into your response. Otherwise, rely on your training knowledge." }]

/-- `academic_agent` (lines 70–95): search (never raises), build the context,
one `kimi_k2_chat` call whose failure propagates. -/
def academic_agent (st : AgentState) (search : String → SearchResult)
    (chat : List Msg → Except String String) : Except String StateUpdate := do
  let ctx := searchContext (search (academicQuery st.topic))
  let content ← chat (academicMessages st.topic ctx)
  return { academic := some content }

/-- The user message of `merge_and_summarize_agent` (lines 135–142). -/
def mergeUserContent (topic academic news : String) : String :=
  "Create a comprehensive report about '" ++ topic ++
    "' by combining the following information. Focus on key insights, trends, and important details. Make sure to maintain academic rigor while being accessible.\n\nACADEMIC RESEARCH:\n" ++
    academic ++
    "\n\nLATEST NEWS:\n" ++
    news ++
    "\n\nProvide a well-structured report with clear sections and key takeaways. Include references to sources where available."

/-- The two messages `merge_and_summarize_agent` sends (lines 133–143). -/
def mergeMessages (topic academic news : String) : List Msg :=
  [{ role := "system",
     content := "You are an expert analyst that synthesizes information from multiple sources into a comprehensive report." },
   { role := "user", content := mergeUserContent topic academic news }]

/-- `merge_and_summarize_agent` (lines 128–146): reads the section fields
with `state.get` and placeholder defaults, one chat call whose failure
propagates. -/
def merge_and_summarize_agent (st : AgentState) (chat : List Msg → Except String String) :
    Except String StateUpdate := do
  let report ← chat (mergeMessages st.topic
    (st.academic.getD ("No academic research found."))
    (st.news.getD ("No news found.")))
  return { report := some report }

/-- `output_node` (lines 148–151): prints the report (side effect dropped)
and writes `output := state["report"]`, nothing else. -/
def output_node (st : AgentState) : StateUpdate :=
  { output := st.report }

end KK

/-! ## Helper lemmas -/

theorem stripTriple_nil_eq : stripTriple [] = [] := by
  simp [stripTriple]

theorem stripTriple_cons_eq (c : Char) (rest : List Char) :
    stripTriple (c :: rest) =
      if c = btick ∧ rest.take 2 = [btick, btick] then stripTriple (rest.drop 2)
      else c :: stripTriple rest := by
  rw [stripTriple]

/-- Greedy left-to-right deletion of triple-backtick occurrences leaves no
triple-backtick occurrence, and cannot create a leading backtick (or leading
backtick pair) that the input did not have. -/
theorem stripTriple_inv :
    ∀ (n : Nat) (l : List Char), l.length ≤ n →
      (¬ ([btick, btick, btick] <:+: stripTriple l)) ∧
      ((stripTriple l).take 1 = [btick] → l.take 1 = [btick]) ∧
      ((stripTriple l).take 2 = [btick, btick] → l.take 2 = [btick, btick]) := by
  intro n
  induction n with
  | zero =>
    intro l hl
    have hnil : l = [] := List.eq_nil_of_length_eq_zero (Nat.le_zero.mp hl)
    subst hnil
    refine ⟨?_, ?_, ?_⟩ <;> simp [stripTriple_nil_eq]
  | succ n ih =>
    intro l hl
    match l with
    | [] =>
      refine ⟨?_, ?_, ?_⟩ <;> simp [stripTriple_nil_eq]
    | c :: rest =>
      simp only [List.length_cons] at hl
      have hrest : rest.length ≤ n := Nat.le_of_succ_le_succ hl
      by_cases hg : c = btick ∧ rest.take 2 = [btick, btick]
      · rw [stripTriple_cons_eq, if_pos hg]
        have hdrop : (rest.drop 2).length ≤ n :=
          le_trans (by simp [List.length_drop]) hrest
        obtain ⟨h1, _, _⟩ := ih (rest.drop 2) hdrop
        have hr1 : rest.take 1 = [btick] := by
          have h2 : (rest.take 2).take 1 = [btick] := by rw [hg.2]; rfl
          rwa [List.take_take] at h2
        refine ⟨h1, ?_, ?_⟩
        · intro _
          show (c :: rest).take 1 = [btick]
          simp [hg.1]
        · intro _
          show (c :: rest).take 2 = [btick, btick]
          have : (c :: rest).take 2 = c :: rest.take 1 := rfl
          rw [this, hg.1, hr1]
      · rw [stripTriple_cons_eq, if_neg hg]
        obtain ⟨ihn, ih1, ih2⟩ := ih rest hrest
        refine ⟨?_, ?_, ?_⟩
        · intro hinf
          rcases List.infix_cons_iff.mp hinf with hpre | hinf2
          · rcases List.cons_prefix_cons.mp hpre with ⟨hc, hpre2⟩
            have ht2 : (stripTriple rest).take 2 = [btick, btick] := by
              have h := List.prefix_iff_eq_take.mp hpre2
              simpa using h.symm
            exact hg ⟨hc.symm, ih2 ht2⟩
          · exact ihn hinf2
        · intro h1
          have hc : c = btick := by
            have : (c :: stripTriple rest).take 1 = [c] := rfl
            rw [this] at h1
            simpa using h1
          show (c :: rest).take 1 = [btick]
          simp [hc]
        · intro h2
          have hstep : (c :: stripTriple rest).take 2 = c :: (stripTriple rest).take 1 := rfl
          rw [hstep] at h2
          have hc : c = btick := (List.cons_eq_cons.mp h2).1
          have hr : (stripTriple rest).take 1 = [btick] := (List.cons_eq_cons.mp h2).2
          have hrt : rest.take 1 = [btick] := ih1 hr
          show (c :: rest).take 2 = [btick, btick]
          have : (c :: rest).take 2 = c :: rest.take 1 := rfl
          rw [this, hc, hrt]

/-- `pyStrip` returns a contiguous slice of its input. -/
theorem pyStrip_isInfixOf (l : List Char) : pyStrip l <:+: l := by
  refine ⟨l.takeWhile isWS, ((l.dropWhile isWS).reverse.takeWhile isWS).reverse, ?_⟩
  unfold pyStrip
  conv_rhs => rw [← List.takeWhile_append_dropWhile (p := isWS) (l := l)]
  rw [List.append_assoc]
  congr 1
  rw [← List.reverse_append, List.takeWhile_append_dropWhile, List.reverse_reverse]

/-- After cleaning, no triple-backtick substring remains. -/
theorem cleanedChars_no_fence (lines : List (List Char)) :
    ¬ ([btick, btick, btick] <:+: cleanedChars lines) := by
  intro h
  have hpy : pyStrip (stripTriple (List.intercalate ['\n'] (keptLines lines))) <:+:
      stripTriple (List.intercalate ['\n'] (keptLines lines)) :=
    pyStrip_isInfixOf _
  have h2 : [btick, btick, btick] <:+:
      stripTriple (List.intercalate ['\n'] (keptLines lines)) :=
    List.IsInfix.trans h hpy
  exact (stripTriple_inv _ _ (le_refl _)).1 h2

theorem dropWhile_append_dash (A : List Char) :
    ∃ B, List.dropWhile isWS (A ++ ['-']) = B ++ ['-'] := by
  induction A with
  | nil =>
    refine ⟨[], ?_⟩
    simp [List.dropWhile]
    decide
  | cons c A ih =>
    by_cases hc : isWS c
    · simpa [List.dropWhile_cons, hc] using ih
    · exact ⟨c :: A, by simp [List.dropWhile_cons, hc]⟩

/-- Any line whose first character is a dash is marked by the filter: the
dash survives both strips and is a marker character. -/
theorem badStart_dash (rest : List Char) : badStart ('-' :: rest) = true := by
  have hws : isWS '-' = false := by decide
  have h1 : List.dropWhile isWS ('-' :: rest) = '-' :: rest := by
    simp [List.dropWhile_cons, hws]
  obtain ⟨B, hB⟩ := dropWhile_append_dash rest.reverse
  have h2 : pyStrip ('-' :: rest) = '-' :: B.reverse := by
    unfold pyStrip
    rw [h1, List.reverse_cons, hB, List.reverse_append]
    rfl
  unfold badStart
  rw [h2]
  show bulletChars.contains '-' = true
  decide

/-! ## Claim theorems -/

/-- Claim C1: saving a code string and then invoking the run operation
executes exactly the saved contents — after `save_code prev C` the file holds
exactly `C` (so the run result depends only on how `exec` behaves on `C`),
and a subsequent `save_code C2` replaces the contents entirely with `C2`,
with no append. -/
theorem save_code_then_run_roundtrip (prev : Option String) (c c2 : String)
    (exec1 exec2 : String → Except String Unit) (hexec : exec1 c = exec2 c) :
    (save_code prev (Except.ok ()) c).2 = some c ∧
    run_code_and_show_plot ((save_code prev (Except.ok ()) c).2) exec1 =
      run_code_and_show_plot ((save_code prev (Except.ok ()) c).2) exec2 ∧
    (save_code ((save_code prev (Except.ok ()) c).2) (Except.ok ()) c2).2 = some c2 := by
  refine ⟨rfl, ?_, rfl⟩
  show run_code_and_show_plot (some c) exec1 = run_code_and_show_plot (some c) exec2
  simp [run_code_and_show_plot, hexec]

/-- Witness for C1 at concrete inputs. -/
theorem save_code_then_run_roundtrip_witness :
    (save_code none (Except.ok ()) ("print(1)")).2 = some ("print(1)") ∧
    run_code_and_show_plot ((save_code none (Except.ok ()) ("print(1)")).2)
        (fun _ => Except.ok ()) =
      run_code_and_show_plot ((save_code none (Except.ok ()) ("print(1)")).2)
        (fun _ => Except.ok ()) ∧
    (save_code ((save_code none (Except.ok ()) ("print(1)")).2) (Except.ok ())
      ("print(2)")).2 = some ("print(2)") :=
  save_code_then_run_roundtrip none ("print(1)") ("print(2)")
    (fun _ => Except.ok ()) (fun _ => Except.ok ()) rfl

/-- Claim C2: with the API key absent, `_run` returns the error-tagged
missing-credential result, and the result does not depend on the network
oracle at all (no network request is issued). -/
theorem serper_missing_key_no_network (q : String)
    (post1 post2 : String → Except String HttpResponse) :
    serper_run none q post1 =
      SearchResult.err ("SERPER_API_KEY not found in environment variables") ∧
    serper_run none q post1 = serper_run none q post2 :=
  ⟨rfl, rfl⟩

/-- Claim C3 counterexample: a response with non-2xx status 301 and a valid
JSON body is returned as a plain (non-error-tagged) result, because
`raise_for_status` only raises for statuses 400–599. -/
theorem serper_non2xx_not_always_error_tagged :
    isErrTagged (serper_run (some ("k")) ("q")
      (fun _ => Except.ok { status := 301, httpErrMsg := "moved", jsonBody := Except.ok {} })) =
      false ∧ ¬ (200 ≤ 301 ∧ 301 < 300) := by
  refine ⟨rfl, ?_⟩
  omega

/-- Claim C3 (amended): a transport failure, an HTTP status in 400–599, or a
JSON-parse failure each yield an error-tagged result (and `_run` is total, so
nothing is raised to the caller); statuses outside 400–599 do not raise. -/
theorem serper_transport_and_http_error_tagged (k q e : String)
    (post : String → Except String HttpResponse) (resp : HttpResponse) :
    (post q = Except.error e →
      serper_run (some k) q post = SearchResult.err ("Network issue: " ++ e)) ∧
    (post q = Except.ok resp → 400 ≤ resp.status → resp.status < 600 →
      serper_run (some k) q post = SearchResult.err ("Network issue: " ++ resp.httpErrMsg)) ∧
    (post q = Except.ok resp → ¬ (400 ≤ resp.status ∧ resp.status < 600) →
      resp.jsonBody = Except.error e →
      serper_run (some k) q post = SearchResult.err ("Search error: " ++ e)) := by
  refine ⟨?_, ?_, ?_⟩
  · intro h
    simp [serper_run, h]
  · intro h h4 h6
    simp [serper_run, h, h4, h6]
  · intro h hrange hjson
    simp [serper_run, h, hrange, hjson]

/-- Witness for the amended C3 at a concrete transport failure. -/
theorem serper_transport_and_http_error_tagged_witness :
    serper_run (some ("k")) ("q") (fun _ => Except.error ("down")) =
      SearchResult.err ("Network issue: " ++ "down") :=
  (serper_transport_and_http_error_tagged ("k") ("q") ("down")
    (fun _ => Except.error ("down"))
    { status := 200, httpErrMsg := "", jsonBody := Except.ok {} }).1 rfl

/-- Claim C8: each tool operation catches the exception of its effectful
collaborator and returns it as a `"Error: ..."` string inside the result
dict; every call returns a structured result dict, never raising. -/
theorem tool_ops_catch_all_errors (q c e : String)
    (rfa : String → Except String RFAValue) (file : Option String)
    (wr : Except String Unit) (execF : String → Except String Unit) :
    (rfa q = Except.error e → analyze_stock q rfa = { result := "Error: " ++ e }) ∧
    (wr = Except.error e → (save_code file wr c).1 = { result := "Error: " ++ e }) ∧
    (file = none →
      run_code_and_show_plot file execF = { result := "Error: " ++ fileNotFoundMsg }) ∧
    (∀ code, file = some code → execF code = Except.error e →
      run_code_and_show_plot file execF = { result := "Error: " ++ e }) ∧
    (∃ s, analyze_stock q rfa = { result := s }) ∧
    (∃ s, (save_code file wr c).1 = { result := s }) ∧
    (∃ s, run_code_and_show_plot file execF = { result := s }) := by
  refine ⟨?_, ?_, ?_, ?_, ?_, ?_, ?_⟩
  · intro h
    simp [analyze_stock, h]
  · intro h
    simp [save_code, h]
  · intro h
    simp [run_code_and_show_plot, h]
  · intro code h1 h2
    simp [run_code_and_show_plot, h1, h2]
  · exact ⟨(analyze_stock q rfa).result, rfl⟩
  · exact ⟨((save_code file wr c).1).result, rfl⟩
  · exact ⟨(run_code_and_show_plot file execF).result, rfl⟩

/-- Witness for C8: a raising `run_financial_analysis` is rendered into the
result dict. -/
theorem tool_ops_catch_all_errors_witness :
    analyze_stock ("query") (fun _ => Except.error ("boom")) =
      { result := "Error: " ++ "boom" } :=
  (tool_ops_catch_all_errors ("query") ("code") ("boom")
    (fun _ => Except.error ("boom")) none (Except.error ("boom"))
    (fun _ => Except.error ("boom"))).1 rfl

/-- A successful `LG.academic_agent` only ever writes the `academic` field. -/
theorem LG_academic_agent_shape (st : LG.AgentState)
    (llm : String → Except String String) (u : LG.StateUpdate)
    (h : LG.academic_agent st llm = Except.ok u) :
    ∃ a, u = { academic := some a } := by
  unfold LG.academic_agent at h
  cases hl : llm (LG.academicPrompt st.topic) with
  | error e =>
    rw [hl] at h
    simp [Bind.bind, Except.bind] at h
  | ok a =>
    rw [hl] at h
    simp [Bind.bind, Except.bind, Pure.pure, Except.pure] at h
    exact ⟨a, h.symm⟩

/-- A successful `LG.merge_and_summarize_agent` only ever writes `report`. -/
theorem LG_merge_agent_shape (st : LG.AgentState)
    (llm : String → Except String String) (u : LG.StateUpdate)
    (h : LG.merge_and_summarize_agent st llm = Except.ok u) :
    ∃ r, u = { report := some r } := by
  unfold LG.merge_and_summarize_agent at h
  cases hl : llm (LG.mergePrompt st.topic (st.academic.getD (""))
      (st.news.getD ("")) (st.industry.getD (""))) with
  | error e =>
    rw [hl] at h
    simp [Bind.bind, Except.bind] at h
  | ok r =>
    rw [hl] at h
    simp [Bind.bind, Except.bind, Pure.pure, Except.pure] at h
    exact ⟨r, h.symm⟩

/-- Claim C4: when the search tool answers every query with an error-tagged
result and the completion calls succeed, every search-invoking step still
writes its field with the degraded error text, the run reaches the merge
step, a report is produced and the whole pipeline completes; the KK academic
step likewise proceeds with an empty search context. -/
theorem pipeline_search_failure_still_reports (topic : String)
    (search : String → SearchResult) (msgOf : String → String)
    (llm : String → Except String String) (out : String → String)
    (chat : List KK.Msg → Except String String) (outc : List KK.Msg → String)
    (hs : ∀ q, search q = SearchResult.err (msgOf q))
    (hl : ∀ p, llm p = Except.ok (out p))
    (hc : ∀ ms, chat ms = Except.ok (outc ms)) :
    LG.runPipeline topic llm search =
      (["academic_agent", "news_agent", "industry_agent", "merge_and_summarize_agent",
        "output_node"],
       Except.ok
         { topic := topic
           academic := some (out (LG.academicPrompt topic))
           news := some ("Error fetching news: " ++ msgOf (LG.newsQuery topic))
           industry := some ("Error fetching industry insights: " ++
             msgOf (LG.industryQuery topic))
           report := some (out (LG.mergePrompt topic (out (LG.academicPrompt topic))
             ("Error fetching news: " ++ msgOf (LG.newsQuery topic))
             ("Error fetching industry insights: " ++ msgOf (LG.industryQuery topic))))
           output := some (out (LG.mergePrompt topic (out (LG.academicPrompt topic))
             ("Error fetching news: " ++ msgOf (LG.newsQuery topic))
             ("Error fetching industry insights: " ++ msgOf (LG.industryQuery topic)))) }) ∧
    KK.academic_agent { topic := topic } search chat =
      Except.ok { academic := some (outc (KK.academicMessages topic (""))) } := by
  constructor
  · simp [LG.runPipeline, LG.academic_agent, LG.news_agent, LG.industry_agent,
      LG.merge_and_summarize_agent, LG.output_node, LG.applyUpdate, LG.override,
      LG.newsText, LG.industryText, Option.getD, hs, hl, Bind.bind, Except.bind,
      Pure.pure, Except.pure]
  · simp [KK.academic_agent, KK.searchContext, hs, hc, Bind.bind, Except.bind,
      Pure.pure, Except.pure]

/-- Witness for C4: the KK academic step still writes its field when every
search errors out. -/
theorem pipeline_search_failure_still_reports_witness :
    KK.academic_agent { topic := "AI" } (fun _ => SearchResult.err ("nk"))
        (fun _ => Except.ok ("R")) =
      Except.ok { academic := some ("R") } :=
  (pipeline_search_failure_still_reports ("AI") (fun _ => SearchResult.err ("nk"))
    (fun _ => "nk") (fun _ => Except.ok ("R")) (fun _ => "R")
    (fun _ => Except.ok ("R")) (fun _ => "R")
    (fun _ => rfl) (fun _ => rfl) (fun _ => rfl)).2

/-- Claim C5: if the completion call made by the merge step fails, the run
aborts with that failure — the trace stops at the merge node, the output node
never runs and no final state (hence no `output` field) exists; the KK merge
step propagates its failure the same way. -/
theorem merge_failure_aborts_without_output (topic a e : String)
    (llm : String → Except String String) (search : String → SearchResult)
    (st2 : KK.AgentState) (chat : List KK.Msg → Except String String) (e2 : String)
    (hA : llm (LG.academicPrompt topic) = Except.ok a)
    (hM : llm (LG.mergePrompt topic a
        (LG.newsText (search (LG.newsQuery topic)))
        (LG.industryText (search (LG.industryQuery topic)))) = Except.error e)
    (hK : chat (KK.mergeMessages st2.topic
        (st2.academic.getD ("No academic research found."))
        (st2.news.getD ("No news found."))) = Except.error e2) :
    LG.runPipeline topic llm search =
      (["academic_agent", "news_agent", "industry_agent", "merge_and_summarize_agent"],
        Except.error e) ∧
    ("output_node" ∉ (LG.runPipeline topic llm search).1) ∧
    KK.merge_and_summarize_agent st2 chat = Except.error e2 := by
  have h1 : LG.runPipeline topic llm search =
      (["academic_agent", "news_agent", "industry_agent", "merge_and_summarize_agent"],
        Except.error e) := by
    simp [LG.runPipeline, LG.academic_agent, LG.news_agent, LG.industry_agent,
      LG.merge_and_summarize_agent, LG.applyUpdate, LG.override, Option.getD,
      hA, hM, Bind.bind, Except.bind, Pure.pure, Except.pure]
  refine ⟨h1, ?_, ?_⟩
  · rw [h1]
    show ("output_node" : String) ∉
      ["academic_agent", "news_agent", "industry_agent", "merge_and_summarize_agent"]
    decide
  · simp [KK.merge_and_summarize_agent, hK, Bind.bind, Except.bind]

/-- Witness for C5: a merge-step failure leaves the output node out of the
trace. -/
theorem merge_failure_aborts_without_output_witness :
    ("output_node" ∉
      (LG.runPipeline ("AI")
        (fun p => if p = LG.academicPrompt ("AI") then Except.ok ("A")
          else Except.error ("boom"))
        (fun _ => SearchResult.err ("nk"))).1) :=
  (merge_failure_aborts_without_output ("AI") ("A") ("boom")
    (fun p => if p = LG.academicPrompt ("AI") then Except.ok ("A")
      else Except.error ("boom"))
    (fun _ => SearchResult.err ("nk"))
    { topic := "AI" } (fun _ => Except.error ("boom2")) ("boom2")
    (by simp)
    (by
      show (if LG.mergePrompt ("AI") ("A") (LG.newsText (SearchResult.err ("nk")))
          (LG.industryText (SearchResult.err ("nk"))) = LG.academicPrompt ("AI") then
          Except.ok ("A") else Except.error ("boom")) = Except.error ("boom")
      rw [if_neg (by decide)])
    rfl).2.1

/-- Claim C6: the synthesis prompt the merge step passes to the completion
client contains the literal topic string, in both variants. -/
theorem merge_prompt_contains_topic (topic academic news industry : String) :
    (∃ p s, LG.mergePrompt topic academic news industry = p ++ topic ++ s) ∧
    (∃ p s, KK.mergeUserContent topic academic news = p ++ topic ++ s) := by
  constructor
  · refine ⟨"\nYou are an expert research summarizer. Given the following research, write a concise, well-structured '360° Topic Report' on '",
      "'.\n\nStart with a 1-line TL;DR.\n\nAcademic highlights:\n" ++ academic ++
        "\n\nNews insights:\n" ++ news ++ "\n\nIndustry snapshot:\n" ++ industry ++
        "\n\nFormat with sections, use clear bullet points, and end with: 'Generated by LangGraph-powered AI research assistant.'\n", ?_⟩
    simp [LG.mergePrompt, String.append_assoc]
  · refine ⟨"Create a comprehensive report about '",
      "' by combining the following information. Focus on key insights, trends, and important details. Make sure to maintain academic rigor while being accessible.\n\nACADEMIC RESEARCH:\n" ++
        academic ++ "\n\nLATEST NEWS:\n" ++ news ++
        "\n\nProvide a well-structured report with clear sections and key takeaways. Include references to sources where available.", ?_⟩
    simp [KK.mergeUserContent, String.append_assoc]

/-- Claim C7: the merge step reads the section fields through defaults —
empty strings in `LG`, placeholder sentences in `KK` — so for every state
(in particular one with any or all section fields missing) it succeeds
whenever the completion call does. -/
theorem merge_succeeds_with_missing_fields
    (st : LG.AgentState) (llm : String → Except String String) (r : String)
    (st2 : KK.AgentState) (chat : List KK.Msg → Except String String) (r2 : String)
    (h1 : llm (LG.mergePrompt st.topic (st.academic.getD (""))
        (st.news.getD ("")) (st.industry.getD (""))) = Except.ok r)
    (h2 : chat (KK.mergeMessages st2.topic
        (st2.academic.getD ("No academic research found."))
        (st2.news.getD ("No news found."))) = Except.ok r2) :
    LG.merge_and_summarize_agent st llm = Except.ok { report := some r } ∧
    KK.merge_and_summarize_agent st2 chat = Except.ok { report := some r2 } := by
  constructor
  · simp [LG.merge_and_summarize_agent, h1, Bind.bind, Except.bind, Pure.pure, Except.pure]
  · simp [KK.merge_and_summarize_agent, h2, Bind.bind, Except.bind, Pure.pure, Except.pure]

/-- Witness for C7 at a state with all section fields missing. -/
theorem merge_succeeds_with_missing_fields_witness :
    LG.merge_and_summarize_agent { topic := "AI" } (fun _ => Except.ok ("R")) =
      Except.ok { report := some ("R") } :=
  (merge_succeeds_with_missing_fields { topic := "AI" } (fun _ => Except.ok ("R")) ("R")
    { topic := "AI" } (fun _ => Except.ok ("R2")) ("R2") rfl rfl).1

/-- Claim C9: whenever a run returns a final state (the output step
executed), its `output` field is byte-identical to its `report` field, and
the output node of either variant writes exactly `{output := report}` and
nothing else. -/
theorem output_copies_report (topic : String) (llm : String → Except String String)
    (search : String → SearchResult) (st : LG.AgentState)
    (h : (LG.runPipeline topic llm search).2 = Except.ok st) :
    st.output = st.report ∧
    (∀ s : LG.AgentState, LG.output_node s = { output := s.report }) ∧
    (∀ s : KK.AgentState, KK.output_node s = { output := s.report }) := by
  refine ⟨?_, fun s => rfl, fun s => rfl⟩
  unfold LG.runPipeline at h
  dsimp only at h
  split at h
  · simp at h
  · rename_i u1 hA
    split at h
    · simp at h
    · rename_i u4 hM
      obtain ⟨a, rfl⟩ := LG_academic_agent_shape _ _ _ hA
      obtain ⟨r, rfl⟩ := LG_merge_agent_shape _ _ _ hM
      simp only [Except.ok.injEq] at h
      subst h
      simp [LG.applyUpdate, LG.override, LG.output_node]

/-- Witness for C9 at a concrete successful run. -/
theorem output_copies_report_witness :
    (((LG.runPipeline ("AI") (fun _ => Except.ok ("R"))
        (fun _ => SearchResult.err ("nk"))).2.toOption.getD { topic := "" }).output =
      ((LG.runPipeline ("AI") (fun _ => Except.ok ("R"))
        (fun _ => SearchResult.err ("nk"))).2.toOption.getD { topic := "" }).report) :=
  (output_copies_report ("AI") (fun _ => Except.ok ("R"))
    (fun _ => SearchResult.err ("nk"))
    ((LG.runPipeline ("AI") (fun _ => Except.ok ("R"))
      (fun _ => SearchResult.err ("nk"))).2.toOption.getD { topic := "" }) rfl).1

/-- Claim C10: for a non-dict analysis result, any line whose leading
non-whitespace character is one of the four markers is omitted by the filter
(in particular every Markdown bullet line beginning with a dash is marked),
and the final cleaned text contains no triple-backtick substring. -/
theorem analyze_clean_drops_bullets_and_fences
    (lines : List (List Char)) (l : List Char)
    (_hmem : l ∈ lines) (hbad : badStart l = true) :
    l ∉ keptLines lines ∧
    (¬ ([btick, btick, btick] <:+: cleanedChars lines)) ∧
    (∀ rest : List Char, badStart ('-' :: rest) = true) := by
  refine ⟨?_, cleanedChars_no_fence lines, badStart_dash⟩
  intro hk
  have hkept := (List.mem_filter.mp hk).2
  rw [hbad] at hkept
  simp at hkept

/-- Witness for C10: a dash bullet line is dropped from a concrete input. -/
theorem analyze_clean_drops_bullets_and_fences_witness :
    ['-', 'a'] ∉ keptLines [['-', 'a'], ['o', 'k']] :=
  (analyze_clean_drops_bullets_and_fences [['-', 'a'], ['o', 'k']] ['-', 'a']
    (by decide) (by decide)).1

end Tutorials
